import Mathlib

/-
Verification of the ball-tracing pipeline in src/main.py.

The program delegates every transformation to OpenCV primitives.  We embed it
shallowly:

* floating-point values returned by the library (areas, moments, circle
  centers and radii) are modelled as exact rationals;
* a contour is the record of its library-observable attributes
  (cv2.contourArea, cv2.minEnclosingCircle, cv2.moments);
* the frame buffer is modelled by the list of cv2.circle drawing operations
  applied to it (the underlying pixels are never read by the code, only
  drawn onto);
* Python's ZeroDivisionError is modelled by an explicit fault outcome that
  carries the state of the frame buffer at the moment the fault is raised;
* the OpenCV functions process_frame delegates to are an abstract interface
  (a structure of function fields): process_frame is verified for every
  interpretation of the primitives.
-/

namespace BallTracer

/-- Python's int() conversion truncates toward zero.  For a rational q
(num/den, den positive) this is T-division of the numerator by the
denominator. -/
def pyInt (q : ℚ) : Int :=
  Int.tdiv q.num q.den

/-- One cv2.circle drawing call applied to the frame buffer:
center, radius, BGR color, thickness (-1 = filled). -/
structure CircleOp where
  center : Int × Int
  radius : Int
  color : ℕ × ℕ × ℕ
  thickness : Int
deriving DecidableEq, Repr

/-- A frame buffer, modelled by the sequence of drawing operations applied
to it (the base pixel content is opaque to draw_contours). -/
abbrev Frame := List CircleOp

/-- Severity level of a log record (logging module levels). -/
inductive LogLevel where
  | debug
  | info
  | warning
  | error
deriving DecidableEq, Repr

/-- One emitted log record: level and formatted message. -/
structure LogMsg where
  level : LogLevel
  msg : String
deriving DecidableEq, Repr

/-- A contour as draw_contours observes it through the library:
`area` is cv2.contourArea(c); `circleX`, `circleY`, `radius` are
cv2.minEnclosingCircle(c); `m00`, `m10`, `m01` are the moments
cv2.moments(c) used for the centroid. -/
structure Contour where
  area : ℚ
  circleX : ℚ
  circleY : ℚ
  radius : ℚ
  m00 : ℚ
  m10 : ℚ
  m01 : ℚ
deriving DecidableEq, Repr

/-- The outline circle drawn at src/main.py line 68:
cv2.circle(frame, (int(x), int(y)), int(radius), (0, 255, 255), 5). -/
def outlineOp (c : Contour) : CircleOp :=
  ⟨(pyInt c.circleX, pyInt c.circleY), pyInt c.radius, (0, 255, 255), 5⟩

/-- The centroid computed at line 70: (int(M["m10"]/M["m00"]), int(M["m01"]/M["m00"])). -/
def centerOf (c : Contour) : Int × Int :=
  (pyInt (c.m10 / c.m00), pyInt (c.m01 / c.m00))

/-- The centroid dot drawn at line 71: cv2.circle(frame, center, 5, (0, 0, 255), -1). -/
def dotOp (c : Contour) : CircleOp :=
  ⟨centerOf c, 5, (0, 0, 255), -1⟩

/-- The log record emitted at line 72: logger.info(f"Center coordinates: {center}")
where center is a Python pair, printed as (x, y). -/
def centerLog (c : Contour) : LogMsg :=
  ⟨LogLevel.info,
   "Center coordinates: (" ++ toString (centerOf c).1 ++ ", " ++
     toString (centerOf c).2 ++ ")"⟩

/-- The observable state draw_contours threads through its loop:
the frame buffer and the log records emitted so far. -/
structure DrawState where
  frame : Frame
  logs : List LogMsg
deriving DecidableEq, Repr

/-- Outcome of (part of) the draw_contours loop: normal completion, or a
ZeroDivisionError raised at line 70, carrying the state at the fault
(the outline circle of the faulting contour is already drawn). -/
inductive DrawOutcome where
  | ok : DrawState → DrawOutcome
  | zeroDivFault : DrawState → DrawOutcome
deriving DecidableEq, Repr

/-- The frame buffer held by an outcome (on a fault, the buffer as mutated
up to the fault). -/
def outcomeFrame : DrawOutcome → Frame
  | DrawOutcome.ok s => s.frame
  | DrawOutcome.zeroDivFault s => s.frame

/-- The log records emitted by an outcome. -/
def outcomeLogs : DrawOutcome → List LogMsg
  | DrawOutcome.ok s => s.logs
  | DrawOutcome.zeroDivFault s => s.logs

/-- One iteration of the loop body of draw_contours (src/main.py lines 63-72)
on contour c: area filter, radius filter, outline circle, centroid (faulting
when the zeroth moment is zero, after the outline is already drawn),
centroid dot, log record. -/
def drawStep (min_contour_area : ℚ) (s : DrawState) (c : Contour) : DrawOutcome :=
  if c.area > min_contour_area then
    if c.radius > 10 then
      let f1 := s.frame ++ [outlineOp c]
      if c.m00 = 0 then
        DrawOutcome.zeroDivFault ⟨f1, s.logs⟩
      else
        DrawOutcome.ok ⟨f1 ++ [dotOp c], s.logs ++ [centerLog c]⟩
    else
      DrawOutcome.ok s
  else
    DrawOutcome.ok s

/-- The loop of draw_contours over the contour list; a raised
ZeroDivisionError aborts the loop (and propagates out of the function). -/
def drawLoop (min_contour_area : ℚ) : DrawState → List Contour → DrawOutcome
  | s, [] => DrawOutcome.ok s
  | s, c :: rest =>
    match drawStep min_contour_area s c with
    | DrawOutcome.ok s' => drawLoop min_contour_area s' rest
    | DrawOutcome.zeroDivFault s' => DrawOutcome.zeroDivFault s'

/-- draw_contours (src/main.py lines 58-73): iterate over the contours,
drawing onto the frame and logging; no log records have been emitted at
entry. -/
def draw_contours (frame : Frame) (cnts : List Contour) (min_contour_area : ℚ) :
    DrawOutcome :=
  drawLoop min_contour_area ⟨frame, []⟩ cnts

/-- The drawing operations a single contour contributes when no fault
occurs: the outline circle and the centroid dot when it passes both
filters, nothing otherwise. -/
def contourOps (min_contour_area : ℚ) (c : Contour) : List CircleOp :=
  if c.area > min_contour_area ∧ c.radius > 10 then [outlineOp c, dotOp c] else []

/-- The log records a single contour contributes when no fault occurs. -/
def contourLogs (min_contour_area : ℚ) (c : Contour) : List LogMsg :=
  if c.area > min_contour_area ∧ c.radius > 10 then [centerLog c] else []

lemma drawLoop_append (m : ℚ) (pre : List Contour) :
    ∀ (s : DrawState) (l : List Contour), (∀ x ∈ pre, x.m00 ≠ 0) →
      drawLoop m s (pre ++ l) =
        drawLoop m ⟨s.frame ++ (pre.map (contourOps m)).flatten,
                    s.logs ++ (pre.map (contourLogs m)).flatten⟩ l := by
  induction pre with
  | nil => intro s l _; simp
  | cons c rest ih =>
    intro s l h
    have hc : c.m00 ≠ 0 := h c (List.mem_cons_self c rest)
    have hrest : ∀ x ∈ rest, x.m00 ≠ 0 := fun x hx => h x (List.mem_cons_of_mem c hx)
    by_cases ha : c.area > m
    · by_cases hr : c.radius > 10
      · simp [drawLoop, drawStep, ha, hr, hc, ih _ _ hrest, contourOps, contourLogs,
          List.append_assoc]
      · simp [drawLoop, drawStep, ha, hr, ih _ _ hrest, contourOps, contourLogs]
    · simp [drawLoop, drawStep, ha, ih _ _ hrest, contourOps, contourLogs]

lemma drawLoop_ok (m : ℚ) (cnts : List Contour) (s : DrawState)
    (h : ∀ c ∈ cnts, c.m00 ≠ 0) :
    drawLoop m s cnts =
      DrawOutcome.ok ⟨s.frame ++ (cnts.map (contourOps m)).flatten,
                      s.logs ++ (cnts.map (contourLogs m)).flatten⟩ := by
  have h2 := drawLoop_append m cnts s [] h
  rw [List.append_nil] at h2
  simpa [drawLoop] using h2

/-! ## Concrete contours used as test inputs -/

/-- A degenerate contour: positive reported area and enclosing radius, zero
zeroth-order moment.  draw_contours divides by the zeroth moment with no
guard, so this input raises ZeroDivisionError. -/
def degenContour : Contour :=
  ⟨2, 0, 0, 11, 0, 5, 5⟩

/-- The spec's disk scenario: a filled disk of radius 50 centered at
(320, 240); area and m00 are pi*50^2 rounded to 7850, the first-order
moments place the centroid exactly at (320, 240). -/
def diskContour : Contour :=
  ⟨7850, 320, 240, 50, 7850, 2512000, 1884000⟩

/-- A noise-scale contour: area 1, radius 2 — rejected by both filters. -/
def smallContour : Contour :=
  ⟨1, 5, 5, 2, 1, 5, 5⟩

/-- A contour whose enclosing-circle data and centroid are fractional:
center (319.9, 240.7), radius 50.5, centroid (319.9, 240.7). -/
def fracContour : Contour :=
  ⟨400, 3199/10, 2407/10, 101/2, 10, 3199, 2407⟩

/-! ## The Mask Builder: process_frame over an abstract vision library -/

/-- An HSV bound triple, as built by np.array([h, s, v]). -/
abbrev HSVBound := ℕ × ℕ × ℕ

/-- One entry of the color-bounds table: lower and upper HSV bounds. -/
structure ColorRange where
  lower : HSVBound
  upper : HSVBound
deriving DecidableEq, Repr

/-- The color_bounds table of src/main.py lines 24-32, as an association
list (Python dict lookup on a missing key raises KeyError). -/
def color_bounds : List (String × ColorRange) :=
  [("blue",   ⟨(100, 50, 50), (130, 255, 255)⟩),
   ("red",    ⟨(0, 100, 100), (10, 255, 255)⟩),
   ("green",  ⟨(40, 50, 50), (80, 255, 255)⟩),
   ("yellow", ⟨(20, 100, 100), (30, 255, 255)⟩),
   ("orange", ⟨(5, 100, 100), (15, 255, 255)⟩),
   ("black",  ⟨(0, 0, 0), (180, 255, 30)⟩),
   ("white",  ⟨(0, 0, 200), (180, 30, 255)⟩)]

/-- Contour-retrieval mode passed to cv2.findContours. -/
inductive RetrievalMode where
  | retrExternal
  | retrList
  | retrCComp
  | retrTree
deriving DecidableEq, Repr

/-- Contour-approximation mode passed to cv2.findContours. -/
inductive ApproxMode where
  | chainApproxNone
  | chainApproxSimple
deriving DecidableEq, Repr

/-- The library primitives process_frame delegates to, as an abstract
interface: Img is the image type, R the raw result type of
cv2.findContours (from which imutils.grab_contours extracts the contour
list).  process_frame is verified for every interpretation of these
fields. -/
structure VisionLib (Img R : Type) where
  gaussianBlur : Img → ℕ × ℕ → ℕ → Img
  cvtColorBGR2HSV : Img → Img
  inRange : Img → HSVBound → HSVBound → Img
  erode : Img → Option Unit → ℕ → Img
  dilate : Img → Option Unit → ℕ → Img
  findContours : Img → RetrievalMode → ApproxMode → R
  grabContours : R → List Contour

/-- Errors process_frame can raise: a Python KeyError from the dict
lookup color_bounds[chosen_color]. -/
inductive PyError where
  | keyError : String → PyError
deriving DecidableEq, Repr

/-- process_frame (src/main.py lines 43-55): Gaussian blur with an 11x11
kernel, BGR to HSV conversion, range threshold against the chosen color's
bounds (the dict lookup happens here and raises KeyError on a missing
key), erosion with 2 iterations, dilation with 2 iterations, external
contour extraction, and grab_contours; returns the original frame and the
contour list.  The min_contour_area parameter is accepted but never
used, exactly as in the source. -/
def process_frame {Img R : Type} (lib : VisionLib Img R) (frame : Img)
    (bounds : List (String × ColorRange)) (chosen_color : String)
    (min_contour_area : ℚ) : Except PyError (Img × List Contour) :=
  let blurred := lib.gaussianBlur frame (11, 11) 0
  let hsv := lib.cvtColorBGR2HSV blurred
  match bounds.lookup chosen_color with
  | Option.none => Except.error (PyError.keyError chosen_color)
  | Option.some cb =>
    let mask0 := lib.inRange hsv cb.lower cb.upper
    let mask1 := lib.erode mask0 Option.none 2
    let mask2 := lib.dilate mask1 Option.none 2
    let raw := lib.findContours mask2 RetrievalMode.retrExternal ApproxMode.chainApproxSimple
    let cnts := lib.grabContours raw
    Except.ok (frame, cnts)

/-- A trivial interpretation of the vision library on one-point types,
used to instantiate the universally quantified theorems at a concrete
input. -/
def unitLib : VisionLib Unit Unit where
  gaussianBlur := fun _ _ _ => ()
  cvtColorBGR2HSV := fun _ => ()
  inRange := fun _ _ _ => ()
  erode := fun _ _ _ => ()
  dilate := fun _ _ _ => ()
  findContours := fun _ _ _ => ()
  grabContours := fun _ => []

/-- get_min_contour_area (src/main.py lines 35-40): Python 3 true
division, so the quotient is exact (floats modelled as rationals). -/
def get_min_contour_area (frame_width frame_height : ℕ) : ℚ :=
  (frame_width * frame_height : ℚ) / 1000

lemma pyInt_of_nonneg (q : ℚ) (h : 0 ≤ q) : pyInt q = ⌊q⌋ := by
  have hn : 0 ≤ q.num := Rat.num_nonneg.mpr h
  rw [pyInt, Int.tdiv_eq_ediv hn (Int.natCast_nonneg q.den), Rat.floor_def]

lemma pyInt_of_nonpos (q : ℚ) (h : q ≤ 0) : pyInt q = ⌈q⌉ := by
  have hneg : pyInt q = -pyInt (-q) := by
    rw [pyInt, pyInt, Rat.neg_num, Rat.neg_den, Int.neg_tdiv, neg_neg]
  rw [hneg, pyInt_of_nonneg (-q) (by linarith)]
  rw [show (⌈q⌉ : Int) = -⌊-q⌋ by rw [← Int.ceil_neg, neg_neg]]

/-! ## Evaluation lemmas for the concrete inputs -/

lemma pyInt_intCast (n : ℤ) : pyInt (n : ℚ) = n := by
  rw [pyInt, Rat.num_intCast, Rat.den_intCast, Nat.cast_one, Int.tdiv_one]

lemma pyInt_q1 : pyInt (3199 / 10 : ℚ) = 319 := by
  rw [pyInt_of_nonneg _ (by norm_num), Int.floor_eq_iff]
  norm_num

lemma pyInt_q2 : pyInt (2407 / 10 : ℚ) = 240 := by
  rw [pyInt_of_nonneg _ (by norm_num), Int.floor_eq_iff]
  norm_num

lemma pyInt_q3 : pyInt (101 / 2 : ℚ) = 50 := by
  rw [pyInt_of_nonneg _ (by norm_num), Int.floor_eq_iff]
  norm_num

lemma pyInt_disk_cx : pyInt ((2512000 : ℚ) / 7850) = 320 := by
  rw [show ((2512000 : ℚ) / 7850) = ((320 : ℤ) : ℚ) by norm_num, pyInt_intCast]

lemma pyInt_disk_cy : pyInt ((1884000 : ℚ) / 7850) = 240 := by
  rw [show ((1884000 : ℚ) / 7850) = ((240 : ℤ) : ℚ) by norm_num, pyInt_intCast]

lemma draw_degen_eq :
    draw_contours [] [degenContour] 1 =
      DrawOutcome.zeroDivFault ⟨[outlineOp degenContour], []⟩ := by
  decide

lemma outlineOp_degen : outlineOp degenContour = ⟨(0, 0), 11, (0, 255, 255), 5⟩ := by
  decide

lemma centerOf_degen : centerOf degenContour = (0, 0) := by
  simp only [centerOf, degenContour, div_zero]
  decide

lemma dotOp_degen : dotOp degenContour = ⟨(0, 0), 5, (0, 0, 255), -1⟩ := by
  rw [dotOp, centerOf_degen]

/-! ## Claim theorems -/

/-- Claim C2: get_min_contour_area(w, h) equals exactly (w*h)/1000 as an
exact non-truncated quotient (307.2 for 640x480), and is monotonic
non-decreasing in both the width and the height.  (It is a pure Lean
function, hence deterministic.) -/
theorem min_contour_area_spec :
    (∀ w h : ℕ, get_min_contour_area w h = (w * h : ℚ) / 1000)
    ∧ get_min_contour_area 640 480 = 307.2
    ∧ (∀ w w' h : ℕ, w ≤ w' → get_min_contour_area w h ≤ get_min_contour_area w' h)
    ∧ (∀ w h h' : ℕ, h ≤ h' → get_min_contour_area w h ≤ get_min_contour_area w h') := by
  refine ⟨fun w h => rfl, by norm_num [get_min_contour_area], ?_, ?_⟩
  · intro w w' h hw
    unfold get_min_contour_area
    gcongr
  · intro w h h' hh
    unfold get_min_contour_area
    gcongr

/-- Witness for C2: the monotonicity clauses applied at concrete
dimensions. -/
theorem min_contour_area_spec_witness :
    get_min_contour_area 3 2 ≤ get_min_contour_area 5 2
    ∧ get_min_contour_area 3 2 ≤ get_min_contour_area 3 4 :=
  ⟨min_contour_area_spec.2.2.1 3 5 2 (by norm_num),
   min_contour_area_spec.2.2.2 3 2 4 (by norm_num)⟩

/-- Claim C1, counterexample: the stated equivalence "accepted (outline
circle drawn, centroid dot drawn, center logged) iff area > min_contour_area
and radius > 10" is false as stated: a contour with zero zeroth-order
moment that passes both filters (area 2 > 1, radius 11 > 10) gets its
outline drawn but then raises ZeroDivisionError, so its centroid dot is
never drawn and its center is never logged. -/
theorem accept_iff_counterexample :
    ¬((outlineOp degenContour ∈ outcomeFrame (draw_contours [] [degenContour] 1)
        ∧ dotOp degenContour ∈ outcomeFrame (draw_contours [] [degenContour] 1)
        ∧ centerLog degenContour ∈ outcomeLogs (draw_contours [] [degenContour] 1))
      ↔ (degenContour.area > 1 ∧ degenContour.radius > 10)) := by
  rw [draw_degen_eq]
  simp only [outcomeFrame, outcomeLogs, outlineOp_degen, dotOp_degen,
    List.mem_singleton, List.not_mem_nil, degenContour]
  norm_num

/-- Claim C1, amended: provided every contour in the list has a nonzero
zeroth-order moment (so no ZeroDivisionError aborts the loop),
draw_contours appends, for each contour passing both filters (area
strictly above min_contour_area and radius strictly above 10), exactly its
outline circle and centroid dot and emits exactly its center log line, and
appends and emits nothing for every other contour. -/
theorem accept_iff_filters_of_nonzero_m00 (frame : Frame) (cnts : List Contour)
    (m : ℚ) (h : ∀ c ∈ cnts, c.m00 ≠ 0) :
    draw_contours frame cnts m =
      DrawOutcome.ok ⟨frame ++ (cnts.map (contourOps m)).flatten,
                      (cnts.map (contourLogs m)).flatten⟩ := by
  have h2 := drawLoop_ok m cnts ⟨frame, []⟩ h
  simpa [draw_contours] using h2

/-- Witness for C1: on a list of one accepted and one rejected contour,
only the accepted one is drawn and logged. -/
theorem accept_iff_filters_witness :
    draw_contours [] [diskContour, smallContour] 307 =
      DrawOutcome.ok ⟨[outlineOp diskContour, dotOp diskContour],
                      [centerLog diskContour]⟩ := by
  rw [accept_iff_filters_of_nonzero_m00 [] [diskContour, smallContour] 307
    (by norm_num [diskContour, smallContour])]
  norm_num [contourOps, contourLogs, diskContour, smallContour]

/-- Claim C3: there is an input to draw_contours — a contour whose zeroth
moment is zero but which passes the area and radius filters — on which the
unguarded divisions m10/m00 and m01/m00 raise ZeroDivisionError. -/
theorem centroid_division_by_zero_exists :
    ∃ (frame : Frame) (cnts : List Contour) (m : ℚ),
      ∃ c ∈ cnts, c.m00 = 0 ∧ c.area > m ∧ c.radius > 10 ∧
        ∃ s, draw_contours frame cnts m = DrawOutcome.zeroDivFault s := by
  refine ⟨[], [degenContour], 1, degenContour, ?_, ?_, ?_, ?_,
    ⟨⟨[outlineOp degenContour], []⟩, draw_degen_eq⟩⟩ <;> decide

/-- Claim C4, counterexample: when centroid computation faults on a
degenerate contour, the frame buffer IS left in a partially annotated
state — processing aborts mid-frame with the faulting contour's outline
circle already drawn (the buffer differs from the input buffer) while its
centroid dot and log line are missing. -/
theorem fault_state_counterexample :
    draw_contours [] [degenContour] 1 =
      DrawOutcome.zeroDivFault ⟨[outlineOp degenContour], []⟩
    ∧ outcomeFrame (draw_contours [] [degenContour] 1) ≠ []
    ∧ outcomeLogs (draw_contours [] [degenContour] 1) = [] := by
  refine ⟨?_, ?_, ?_⟩ <;> decide

/-- Claim C4, amended: when a contour with zero zeroth moment passes both
filters (after a prefix of contours with nonzero zeroth moments), the loop
aborts at that contour with exactly the prefix's annotations plus the
faulting contour's outline circle on the frame buffer — a partially
annotated frame: the faulting contour's dot and log line, and all
remaining contours, are dropped. -/
theorem fault_state_outline_only (frame : Frame) (pre : List Contour)
    (c : Contour) (rest : List Contour) (m : ℚ)
    (hpre : ∀ x ∈ pre, x.m00 ≠ 0)
    (ha : c.area > m) (hr : c.radius > 10) (hm : c.m00 = 0) :
    draw_contours frame (pre ++ c :: rest) m =
      DrawOutcome.zeroDivFault
        ⟨frame ++ (pre.map (contourOps m)).flatten ++ [outlineOp c],
         (pre.map (contourLogs m)).flatten⟩ := by
  rw [draw_contours, drawLoop_append m pre ⟨frame, []⟩ (c :: rest) hpre]
  simp [drawLoop, drawStep, ha, hr, hm, List.append_assoc]

/-- Witness for C4: a fault after one successfully processed contour,
leaving that contour's annotations and the faulting contour's outline. -/
theorem fault_state_outline_only_witness :
    draw_contours [] ([diskContour] ++ degenContour :: [smallContour]) 1 =
      DrawOutcome.zeroDivFault
        ⟨[outlineOp diskContour, dotOp diskContour, outlineOp degenContour],
         [centerLog diskContour]⟩ := by
  rw [fault_state_outline_only [] [diskContour] degenContour [smallContour] 1
    (by norm_num [diskContour]) (by norm_num [degenContour])
    (by norm_num [degenContour]) (by norm_num [degenContour])]
  norm_num [contourOps, contourLogs, diskContour]

/-- Claim C5: on a key missing from the color-bounds table, process_frame
fails with a KeyError (deterministically — it is a function returning
exactly that error, never defaulting); on each of the seven keys present
it returns a (frame, contours) pair, for every interpretation of the
library primitives (no other error path). -/
theorem process_frame_key_lookup {Img R : Type} (lib : VisionLib Img R)
    (frame : Img) (key : String) (a : ℚ) :
    (color_bounds.lookup key = Option.none →
      process_frame lib frame color_bounds key a =
        Except.error (PyError.keyError key))
    ∧ (key ∈ ["blue", "red", "green", "yellow", "orange", "black", "white"] →
      ∃ p, process_frame lib frame color_bounds key a = Except.ok p) := by
  constructor
  · intro h
    simp [process_frame, h]
  · intro h
    simp only [List.mem_cons, List.not_mem_nil, or_false] at h
    rcases h with h | h | h | h | h | h | h <;> subst h <;> exact ⟨_, rfl⟩

/-- Witness for C5: the key "purple" is absent and fails with KeyError;
the key "blue" is present and succeeds. -/
theorem process_frame_key_lookup_witness :
    process_frame unitLib () color_bounds "purple" 1 =
      Except.error (PyError.keyError "purple")
    ∧ ∃ p, process_frame unitLib () color_bounds "blue" 1 = Except.ok p :=
  ⟨(process_frame_key_lookup unitLib () "purple" 1).1 (by decide),
   (process_frame_key_lookup unitLib () "blue" 1).2 (by decide)⟩

/-- Claim C6: whenever the chosen key is bound to bounds cb in the table,
process_frame's result is exactly the composition, in order, of Gaussian
blur with an 11x11 kernel, BGR to HSV conversion, range threshold against
cb's lower and upper bounds, erosion with 2 iterations, dilation with 2
iterations, and contour extraction invoked in external-retrieval mode
(RETR_EXTERNAL — the mode that returns outermost contours only, never
nested ones), for every interpretation of the library primitives. -/
theorem process_frame_pipeline_order {Img R : Type} (lib : VisionLib Img R)
    (frame : Img) (bounds : List (String × ColorRange)) (key : String)
    (a : ℚ) (cb : ColorRange) (h : bounds.lookup key = Option.some cb) :
    process_frame lib frame bounds key a =
      Except.ok (frame, lib.grabContours (lib.findContours
        (lib.dilate
          (lib.erode
            (lib.inRange (lib.cvtColorBGR2HSV (lib.gaussianBlur frame (11, 11) 0))
              cb.lower cb.upper)
            Option.none 2)
          Option.none 2)
        RetrievalMode.retrExternal ApproxMode.chainApproxSimple)) := by
  simp [process_frame, h]

/-- Witness for C6: the pipeline equation instantiated at the trivial
library and the key "blue". -/
theorem process_frame_pipeline_order_witness :
    process_frame unitLib () color_bounds "blue" 1 =
      Except.ok ((), unitLib.grabContours (unitLib.findContours
        (unitLib.dilate
          (unitLib.erode
            (unitLib.inRange (unitLib.cvtColorBGR2HSV (unitLib.gaussianBlur () (11, 11) 0))
              (100, 50, 50) (130, 255, 255))
            Option.none 2)
          Option.none 2)
        RetrievalMode.retrExternal ApproxMode.chainApproxSimple)) :=
  process_frame_pipeline_order unitLib () color_bounds "blue" 1
    ⟨(100, 50, 50), (130, 255, 255)⟩ (by decide)

/-- Claim C7: draw_contours on an empty contour list returns the frame
buffer unchanged and emits no log record. -/
theorem draw_contours_empty (frame : Frame) (m : ℚ) :
    draw_contours frame [] m = DrawOutcome.ok ⟨frame, []⟩ := rfl

/-- Claim C8: when no contour is degenerate, the emitted log records are
exactly one record per contour passing both filters — at informational
level, with message exactly "Center coordinates: (x, y)" for the integer
centroid (x, y) = (int(m10/m00), int(m01/m00)) — and none for any
rejected contour. -/
theorem log_line_per_accepted_contour (frame : Frame) (cnts : List Contour)
    (m : ℚ) (h : ∀ c ∈ cnts, c.m00 ≠ 0) :
    outcomeLogs (draw_contours frame cnts m) =
      (cnts.map (fun c =>
        if c.area > m ∧ c.radius > 10 then
          [LogMsg.mk LogLevel.info
            ("Center coordinates: (" ++ toString (pyInt (c.m10 / c.m00)) ++ ", " ++
              toString (pyInt (c.m01 / c.m00)) ++ ")")]
        else [])).flatten := by
  rw [draw_contours, drawLoop_ok m cnts ⟨frame, []⟩ h]
  rfl

/-- Witness for C8: the spec's disk scenario — one accepted detection at
(320, 240), one rejected speck — yields exactly one informational log
record with message "Center coordinates: (320, 240)". -/
theorem log_line_per_accepted_contour_witness :
    outcomeLogs (draw_contours [] [diskContour, smallContour] 307) =
      [⟨LogLevel.info, "Center coordinates: (320, 240)"⟩] := by
  rw [log_line_per_accepted_contour [] [diskContour, smallContour] 307
    (by norm_num [diskContour, smallContour])]
  have h1 : diskContour.area > 307 ∧ diskContour.radius > 10 := by
    norm_num [diskContour]
  have h2 : ¬(smallContour.area > 307 ∧ smallContour.radius > 10) := by
    norm_num [smallContour]
  simp only [List.map_cons, List.map_nil, List.flatten_cons, List.flatten_nil]
  rw [if_pos h1, if_neg h2]
  simp only [List.append_nil, diskContour]
  rw [pyInt_disk_cx, pyInt_disk_cy]
  decide

/-- Claim C9: process_frame's result does not depend on its
min_contour_area argument — any two values give identical results for
every library interpretation, frame, bounds table, and key (the parameter
is never used, so no area filtering happens inside process_frame). -/
theorem process_frame_ignores_min_area {Img R : Type} (lib : VisionLib Img R)
    (frame : Img) (bounds : List (String × ColorRange)) (key : String)
    (a b : ℚ) :
    process_frame lib frame bounds key a = process_frame lib frame bounds key b :=
  rfl

/-- Claim C10: every coordinate used for drawing and logging is obtained
by Python's int() — truncation toward zero, i.e. floor for nonnegative
values and ceiling for nonpositive values, never rounding to nearest: an
accepted contour's outline circle uses (int(x), int(y)) and int(radius)
from the enclosing circle, and its dot and log use
(int(m10/m00), int(m01/m00)); in particular 319.9 maps to 319 and 240.7
maps to 240, whereas rounding would give 241. -/
theorem int_truncation_semantics :
    (∀ (frame : Frame) (m : ℚ) (c : Contour),
      c.area > m → c.radius > 10 → c.m00 ≠ 0 →
      draw_contours frame [c] m =
        DrawOutcome.ok
          ⟨frame ++ [⟨(pyInt c.circleX, pyInt c.circleY), pyInt c.radius, (0, 255, 255), 5⟩,
                     ⟨(pyInt (c.m10 / c.m00), pyInt (c.m01 / c.m00)), 5, (0, 0, 255), -1⟩],
           [⟨LogLevel.info,
             "Center coordinates: (" ++ toString (pyInt (c.m10 / c.m00)) ++ ", " ++
               toString (pyInt (c.m01 / c.m00)) ++ ")"⟩]⟩)
    ∧ (∀ q : ℚ, 0 ≤ q → pyInt q = ⌊q⌋)
    ∧ (∀ q : ℚ, q ≤ 0 → pyInt q = ⌈q⌉)
    ∧ pyInt (3199/10) = 319 ∧ pyInt (2407/10) = 240 ∧ round (2407/10 : ℚ) = 241 := by
  refine ⟨?_, pyInt_of_nonneg, pyInt_of_nonpos, pyInt_q1, pyInt_q2, ?_⟩
  · intro frame m c ha hr hm
    simp [draw_contours, drawLoop, drawStep, outlineOp, dotOp, centerLog, centerOf,
      ha, hr, hm]
  · rw [round_eq, Int.floor_eq_iff]
    norm_num

/-- Witness for C10: the per-contour equation at a contour whose
enclosing circle is (319.9, 240.7) with radius 50.5 and whose centroid is
(319.9, 240.7): everything is truncated, and the truncation clauses
evaluated at 7/2 and -7/2. -/
theorem int_truncation_semantics_witness :
    draw_contours [] [fracContour] 1 =
      DrawOutcome.ok
        ⟨[⟨(319, 240), 50, (0, 255, 255), 5⟩, ⟨(319, 240), 5, (0, 0, 255), -1⟩],
         [⟨LogLevel.info, "Center coordinates: (319, 240)"⟩]⟩
    ∧ pyInt (7/2) = ⌊(7/2 : ℚ)⌋ ∧ pyInt (-(7/2)) = ⌈(-(7/2) : ℚ)⌉ := by
  refine ⟨?_, int_truncation_semantics.2.1 (7/2) (by norm_num),
    int_truncation_semantics.2.2.1 (-(7/2)) (by norm_num)⟩
  rw [int_truncation_semantics.1 [] 1 fracContour (by norm_num [fracContour])
    (by norm_num [fracContour]) (by norm_num [fracContour])]
  simp only [fracContour, List.nil_append]
  rw [pyInt_q1, pyInt_q2, pyInt_q3]
  decide

end BallTracer
